import Mathlib

/-
Shallow embedding of src/frontend/src/components/BTUCalculator.jsx.

JavaScript numbers are modeled as exact rationals; NaN is modeled as the
value none of Option Rat.  A raw text field of the form carries the two
numeric coercions the component actually applies to it: parseFloat (used
inside calculateBTU, lines 17-19) and the implicit Number coercion that
arithmetic in the breakdown render performs (lines 120-132).
-/

/-- JS falsy coalescing `v || 0`: yields 0 when v is NaN (none) or 0,
otherwise the number itself. -/
def jsOrZero : Option ℚ → ℚ
  | none => 0
  | some x => if x = 0 then 0 else x

/-- JS `Math.round`: nearest integer with halves rounded toward positive
infinity. -/
def jsRound (x : ℚ) : ℤ := ⌊x + 1 / 2⌋

/-- A raw text field of the form, represented by the two numeric coercions
the component applies to it.  `parseFloat` models the JS
`parseFloat(s)` result, `toNumber` models the implicit `Number(s)`
coercion performed by arithmetic operators in the render; none models NaN. -/
structure RawText where
  parseFloat : Option ℚ
  toNumber : Option ℚ

/-- Line 22: `const baseBTU = areaVal * 25`. -/
def baseBTU (areaVal : ℚ) : ℚ := areaVal * 25

/-- Lines 26-29: occupancy adjustment, applied only when occupants > 2. -/
def occupancyBTU (occupantsVal : ℚ) : ℚ :=
  if occupantsVal > 2 then (occupantsVal - 2) * 600 else 0

/-- Lines 33-36: height adjustment, applied only when height > 8. -/
def heightBTU (heightVal : ℚ) : ℚ :=
  if heightVal > 8 then (heightVal - 8) * 1000 else 0

/-- Lines 46-53: climate adjustment from the exposure tag, as a percentage
of the base; any unmatched tag (including "average") falls through to 0. -/
def sunBTU (sunExposure : String) (base : ℚ) : ℚ :=
  if sunExposure = "shady" then -(base * 0.10)
  else if sunExposure = "sunny" then base * 0.10
  else if sunExposure = "very_sunny" then base * 0.20
  else 0

/-- The four internal terms of calculateBTU together with the total that
line 56 stores via setTotalBTU. -/
structure BTUResult where
  baseBTU : ℚ
  occupancyBTU : ℚ
  heightBTU : ℚ
  sunBTU : ℚ
  totalBTU : ℚ
  deriving DecidableEq

/-- Lines 22-56 of calculateBTU, after input parsing: the four internal
consts and `setTotalBTU(baseBTU + occupancyBTU + heightBTU + sunBTU)`. -/
def calculateBTU (areaVal occupantsVal heightVal : ℚ) (sunExposure : String) :
    BTUResult :=
  { baseBTU := baseBTU areaVal
    occupancyBTU := occupancyBTU occupantsVal
    heightBTU := heightBTU heightVal
    sunBTU := sunBTU sunExposure (baseBTU areaVal)
    totalBTU := baseBTU areaVal + occupancyBTU occupantsVal
      + heightBTU heightVal + sunBTU sunExposure (baseBTU areaVal) }

/-- Lines 15-57 of calculateBTU including the input parsing of lines 17-19:
`parseFloat(x) || 0` applied to each raw text field. -/
def calculateBTURaw (area occupants height : RawText) (sunExposure : String) :
    BTUResult :=
  calculateBTU (jsOrZero area.parseFloat) (jsOrZero occupants.parseFloat)
    (jsOrZero height.parseFloat) sunExposure

/-- Line 114: the displayed total, `Math.round(totalBTU)`. -/
def renderTotal (r : BTUResult) : ℤ := jsRound r.totalBTU

/-- Line 120, the value inside Math.round: `area * 25 || 0`, with `area`
the raw string coerced by the multiplication. -/
def renderBaseExpr (area : RawText) : ℚ :=
  jsOrZero (area.toNumber.map (fun x => x * 25))

/-- Line 124, the value inside Math.round:
`Math.max(0, (occupants - 2) * 600) || 0`. -/
def renderOccExpr (occupants : RawText) : ℚ :=
  jsOrZero (occupants.toNumber.map (fun x => max 0 ((x - 2) * 600)))

/-- Line 128, the value inside Math.round:
`Math.max(0, (height - 8) * 1000) || 0`. -/
def renderHeightExpr (height : RawText) : ℚ :=
  jsOrZero (height.toNumber.map (fun x => max 0 ((x - 8) * 1000)))

/-- Line 132, the value inside Math.round: the conditional chain on
sunExposure re-deriving the climate adjustment from the raw area string,
followed by `|| 0`. -/
def renderSunExpr (sunExposure : String) (area : RawText) : ℚ :=
  jsOrZero
    (if sunExposure = "shady" then area.toNumber.map (fun x => -(x * 25 * 0.10))
     else if sunExposure = "sunny" then area.toNumber.map (fun x => x * 25 * 0.10)
     else if sunExposure = "very_sunny" then area.toNumber.map (fun x => x * 25 * 0.20)
     else some 0)

/-- Models the empty text field "" : parseFloat gives NaN, Number gives 0. -/
def rawEmpty : RawText := ⟨none, some 0⟩

/-- Models the text "0x10": parseFloat stops at the x and yields 0, while
the implicit Number coercion reads the hex literal and yields 16. -/
def rawHex16 : RawText := ⟨some 0, some 16⟩

/-- Models a plain decimal numeral: both coercions read the same value. -/
def rawNum (q : ℚ) : RawText := ⟨some q, some q⟩

/- ### Helper lemmas -/

lemma jsOrZero_some (x : ℚ) : jsOrZero (some x) = x := by
  rcases eq_or_ne x 0 with h | h <;> simp [jsOrZero, h]

lemma jsOrZero_none : jsOrZero none = 0 := rfl

lemma occupancyBTU_of_le {o : ℚ} (h : o ≤ 2) : occupancyBTU o = 0 := by
  simp [occupancyBTU, not_lt.mpr h]

lemma occupancyBTU_of_gt {o : ℚ} (h : 2 < o) : occupancyBTU o = (o - 2) * 600 := by
  simp [occupancyBTU, h]

lemma occupancyBTU_nonneg (o : ℚ) : 0 ≤ occupancyBTU o := by
  unfold occupancyBTU
  split_ifs with h
  · nlinarith
  · exact le_refl 0

lemma heightBTU_of_le {h : ℚ} (hh : h ≤ 8) : heightBTU h = 0 := by
  simp [heightBTU, not_lt.mpr hh]

lemma heightBTU_of_gt {h : ℚ} (hh : 8 < h) : heightBTU h = (h - 8) * 1000 := by
  simp [heightBTU, hh]

lemma heightBTU_nonneg (h : ℚ) : 0 ≤ heightBTU h := by
  unfold heightBTU
  split_ifs with hc
  · nlinarith
  · exact le_refl 0

lemma sunBTU_shady (b : ℚ) : sunBTU "shady" b = -(b * 0.10) := by
  simp [sunBTU]

lemma sunBTU_sunny (b : ℚ) : sunBTU "sunny" b = b * 0.10 := by
  have h1 : ("sunny" : String) ≠ "shady" := by decide
  simp [sunBTU, h1]

lemma sunBTU_very_sunny (b : ℚ) : sunBTU "very_sunny" b = b * 0.20 := by
  have h1 : ("very_sunny" : String) ≠ "shady" := by decide
  have h2 : ("very_sunny" : String) ≠ "sunny" := by decide
  simp [sunBTU, h1, h2]

lemma sunBTU_default (e : String) (b : ℚ) (h1 : e ≠ "shady") (h2 : e ≠ "sunny")
    (h3 : e ≠ "very_sunny") : sunBTU e b = 0 := by
  simp [sunBTU, h1, h2, h3]

lemma sunBTU_average (b : ℚ) : sunBTU "average" b = 0 :=
  sunBTU_default _ _ (by decide) (by decide) (by decide)

lemma sunBTU_zero_base (e : String) : sunBTU e 0 = 0 := by
  unfold sunBTU
  split_ifs <;> norm_num

lemma occupancyBTU_eq_max (x : ℚ) : max 0 ((x - 2) * 600) = occupancyBTU x := by
  unfold occupancyBTU
  split_ifs with h
  · exact max_eq_right (by nlinarith)
  · exact max_eq_left (by nlinarith [not_lt.mp h])

lemma heightBTU_eq_max (x : ℚ) : max 0 ((x - 8) * 1000) = heightBTU x := by
  unfold heightBTU
  split_ifs with h
  · exact max_eq_right (by nlinarith)
  · exact max_eq_left (by nlinarith [not_lt.mp h])

/- ### Claim theorems -/

/-- Claim C1: for every input the computed total equals
base + occupancyAdjustment + heightAdjustment + climateAdjustment with
base = areaSqFt * 25; in particular, for all non-negative areaSqFt, with
occupantCount = 0, ceilingHeightFt = 0 and exposure Average, the total is
exactly areaSqFt * 25. -/
theorem total_decomposition_and_area_only (a o h : ℚ) (e : String) (ha : 0 ≤ a) :
    (calculateBTU a o h e).totalBTU
        = baseBTU a + occupancyBTU o + heightBTU h + sunBTU e (baseBTU a)
      ∧ (calculateBTU a 0 0 "average").totalBTU = a * 25 := by
  refine ⟨rfl, ?_⟩
  show baseBTU a + occupancyBTU 0 + heightBTU 0 + sunBTU "average" (baseBTU a) = a * 25
  rw [occupancyBTU_of_le (by norm_num), heightBTU_of_le (by norm_num), sunBTU_average,
    baseBTU]
  ring

theorem total_decomposition_and_area_only_witness :
    (0:ℚ) ≤ 200
      ∧ ((calculateBTU 200 3 9 "sunny").totalBTU
            = baseBTU 200 + occupancyBTU 3 + heightBTU 9 + sunBTU "sunny" (baseBTU 200)
          ∧ (calculateBTU 200 0 0 "average").totalBTU = 200 * 25) :=
  ⟨by norm_num, total_decomposition_and_area_only 200 3 9 "sunny" (by norm_num)⟩

/-- Claim C2: for every input, the total is exactly the arithmetic sum of the
four breakdown terms of the computation, with no hidden terms and no internal
rounding; Math.round appears only in the displayed value. -/
theorem total_eq_breakdown_sum (area occupants height : RawText) (e : String) :
    (calculateBTURaw area occupants height e).totalBTU
        = (calculateBTURaw area occupants height e).baseBTU
          + (calculateBTURaw area occupants height e).occupancyBTU
          + (calculateBTURaw area occupants height e).heightBTU
          + (calculateBTURaw area occupants height e).sunBTU
      ∧ renderTotal (calculateBTURaw area occupants height e)
          = jsRound ((calculateBTURaw area occupants height e).totalBTU) :=
  ⟨rfl, rfl⟩

/-- Claim C3 counterexample: an exposure tag outside the closed set does not
make the estimator fail; calculateBTU returns an ordinary, silently accepted
result equal to the one for Average (climate adjustment defaults to 0). -/
theorem unknown_exposure_silently_accepted :
    calculateBTU 100 0 0 "turbo" = calculateBTU 100 0 0 "average"
      ∧ (calculateBTU 100 0 0 "turbo").totalBTU = 2500 := by
  constructor
  · simp only [calculateBTU]
    rw [sunBTU_default "turbo" _ (by decide) (by decide) (by decide), sunBTU_average]
  · show baseBTU 100 + occupancyBTU 0 + heightBTU 0 + sunBTU "turbo" (baseBTU 100) = 2500
    rw [occupancyBTU_of_le (by norm_num), heightBTU_of_le (by norm_num),
      sunBTU_default "turbo" _ (by decide) (by decide) (by decide), baseBTU]
    norm_num

/-- Claim C3 amended: on an exposure value outside the closed set
{shady, average, sunny, very_sunny} the estimator does not fail; it silently
uses a climate adjustment of 0, returning exactly the Average result. -/
theorem unknown_exposure_defaults_to_average (a o h : ℚ) (e : String)
    (he : e ∉ (["shady", "average", "sunny", "very_sunny"] : List String)) :
    calculateBTU a o h e = calculateBTU a o h "average" := by
  simp only [List.mem_cons, List.not_mem_nil, or_false, not_or] at he
  obtain ⟨h1, _, h2, h3⟩ := he
  simp only [calculateBTU]
  rw [sunBTU_default e _ h1 h2 h3, sunBTU_average]

theorem unknown_exposure_defaults_to_average_witness :
    ("turbo" ∉ (["shady", "average", "sunny", "very_sunny"] : List String))
      ∧ calculateBTU 1 2 3 "turbo" = calculateBTU 1 2 3 "average" :=
  ⟨by decide, unknown_exposure_defaults_to_average 1 2 3 "turbo" (by decide)⟩

/-- Claim C4: occupancy adjustment is 0 for occupantCount at most 2 (including
exactly 2), equals (occupantCount - 2) * 600 above 2, and is strictly
monotonically increasing in occupantCount beyond 2. -/
theorem occupancy_threshold_and_monotone (o o' : ℚ) :
    (o ≤ 2 → occupancyBTU o = 0)
      ∧ (2 < o → occupancyBTU o = (o - 2) * 600)
      ∧ (2 ≤ o → o < o' → occupancyBTU o < occupancyBTU o') := by
  refine ⟨fun h => occupancyBTU_of_le h, fun h => occupancyBTU_of_gt h, fun h1 h2 => ?_⟩
  by_cases h3 : 2 < o
  · rw [occupancyBTU_of_gt h3, occupancyBTU_of_gt (h3.trans h2)]
    nlinarith
  · have ho : o = 2 := le_antisymm (not_lt.mp h3) h1
    subst ho
    rw [occupancyBTU_of_le le_rfl, occupancyBTU_of_gt h2]
    nlinarith

theorem occupancy_threshold_and_monotone_witness :
    occupancyBTU 2 = 0 ∧ occupancyBTU 5 = (5 - 2) * 600
      ∧ occupancyBTU 5 < occupancyBTU 6 :=
  ⟨(occupancy_threshold_and_monotone 2 3).1 (by norm_num),
   (occupancy_threshold_and_monotone 5 6).2.1 (by norm_num),
   (occupancy_threshold_and_monotone 5 6).2.2 (by norm_num) (by norm_num)⟩

/-- Claim C5: height adjustment is 0 for ceilingHeightFt at most 8 (including
exactly 8) and equals (ceilingHeightFt - 8) * 1000 above 8. -/
theorem height_threshold (h : ℚ) :
    (h ≤ 8 → heightBTU h = 0) ∧ (8 < h → heightBTU h = (h - 8) * 1000) :=
  ⟨fun hh => heightBTU_of_le hh, fun hh => heightBTU_of_gt hh⟩

theorem height_threshold_witness :
    heightBTU 8 = 0 ∧ heightBTU 10 = (10 - 8) * 1000 :=
  ⟨(height_threshold 8).1 (by norm_num), (height_threshold 10).2 (by norm_num)⟩

/-- Claim C6: the climate adjustment is exactly -0.10 * base for shady, 0 for
average, +0.10 * base for sunny and +0.20 * base for very_sunny, where
base = areaSqFt * 25, and it is independent of occupantCount and
ceilingHeightFt. -/
theorem climate_pct_of_base_and_independent (a o h o' h' : ℚ) (e : String) :
    (calculateBTU a o h "shady").sunBTU = -(0.10 * baseBTU a)
      ∧ (calculateBTU a o h "average").sunBTU = 0
      ∧ (calculateBTU a o h "sunny").sunBTU = 0.10 * baseBTU a
      ∧ (calculateBTU a o h "very_sunny").sunBTU = 0.20 * baseBTU a
      ∧ (calculateBTU a o h e).sunBTU = (calculateBTU a o' h' e).sunBTU := by
  refine ⟨?_, ?_, ?_, ?_, rfl⟩
  · show sunBTU "shady" (baseBTU a) = -(0.10 * baseBTU a)
    rw [sunBTU_shady]; ring
  · show sunBTU "average" (baseBTU a) = 0
    exact sunBTU_average _
  · show sunBTU "sunny" (baseBTU a) = 0.10 * baseBTU a
    rw [sunBTU_sunny]; ring
  · show sunBTU "very_sunny" (baseBTU a) = 0.20 * baseBTU a
    rw [sunBTU_very_sunny]; ring

/-- Claim C7 counterexample: the render re-derives the breakdown with its own
expressions, using the implicit Number coercion of the raw strings, while the
estimator uses parseFloat; on the text "0x10" the rendered base expression is
400 while the base used inside the computation is 0, so the single shared
computation path the claim asserts does not exist. -/
theorem render_breakdown_diverges :
    renderBaseExpr rawHex16 = 400
      ∧ (calculateBTURaw rawHex16 rawEmpty rawEmpty "average").baseBTU = 0
      ∧ renderBaseExpr rawHex16
          ≠ (calculateBTURaw rawHex16 rawEmpty rawEmpty "average").baseBTU := by
  refine ⟨?_, ?_, ?_⟩
  · show jsOrZero ((some (16:ℚ)).map (fun x => x * 25)) = 400
    rw [Option.map_some', jsOrZero_some]; norm_num
  · show baseBTU (jsOrZero (some (0:ℚ))) = 0
    rw [jsOrZero_some, baseBTU]; norm_num
  · show jsOrZero ((some (16:ℚ)).map (fun x => x * 25))
        ≠ baseBTU (jsOrZero (some (0:ℚ)))
    rw [Option.map_some', jsOrZero_some, jsOrZero_some, baseBTU]; norm_num

/-- Claim C7 amended: the render re-derives each breakdown term with its own
inline expressions rather than reading the estimator values; the re-derived
terms coincide with the terms computed inside calculateBTU exactly when each
text field coerces identically under parseFloat and Number (in particular for
all plain decimal numerals), but diverge in general. -/
theorem render_breakdown_agrees_when_coercions_agree
    (area occupants height : RawText) (e : String)
    (ha : area.toNumber = area.parseFloat)
    (ho : occupants.toNumber = occupants.parseFloat)
    (hh : height.toNumber = height.parseFloat) :
    renderBaseExpr area = (calculateBTURaw area occupants height e).baseBTU
      ∧ renderOccExpr occupants
          = (calculateBTURaw area occupants height e).occupancyBTU
      ∧ renderHeightExpr height
          = (calculateBTURaw area occupants height e).heightBTU
      ∧ renderSunExpr e area = (calculateBTURaw area occupants height e).sunBTU := by
  refine ⟨?_, ?_, ?_, ?_⟩
  · rw [renderBaseExpr, ha]
    show _ = baseBTU (jsOrZero area.parseFloat)
    cases area.parseFloat with
    | none => simp [jsOrZero, baseBTU]
    | some x => rw [Option.map_some', jsOrZero_some, jsOrZero_some, baseBTU]
  · rw [renderOccExpr, ho]
    show _ = occupancyBTU (jsOrZero occupants.parseFloat)
    cases occupants.parseFloat with
    | none =>
      rw [Option.map_none', jsOrZero_none, occupancyBTU_of_le (by norm_num)]
    | some x => rw [Option.map_some', jsOrZero_some, jsOrZero_some, occupancyBTU_eq_max]
  · rw [renderHeightExpr, hh]
    show _ = heightBTU (jsOrZero height.parseFloat)
    cases height.parseFloat with
    | none =>
      rw [Option.map_none', jsOrZero_none, heightBTU_of_le (by norm_num)]
    | some x => rw [Option.map_some', jsOrZero_some, jsOrZero_some, heightBTU_eq_max]
  · rw [renderSunExpr, ha]
    show _ = sunBTU e (baseBTU (jsOrZero area.parseFloat))
    cases area.parseFloat with
    | none =>
      have hb : baseBTU (jsOrZero none) = 0 := by rw [jsOrZero_none, baseBTU]; ring
      rw [hb, sunBTU_zero_base]
      split_ifs <;> simp [jsOrZero]
    | some x =>
      rw [jsOrZero_some]
      split_ifs with h1 h2 h3
      · subst h1
        rw [Option.map_some', jsOrZero_some, sunBTU_shady, baseBTU]
      · subst h2
        rw [Option.map_some', jsOrZero_some, sunBTU_sunny, baseBTU]
      · subst h3
        rw [Option.map_some', jsOrZero_some, sunBTU_very_sunny, baseBTU]
      · rw [jsOrZero_some, sunBTU_default e _ h1 h2 h3]

theorem render_breakdown_agrees_when_coercions_agree_witness :
    ((rawNum 200).toNumber = (rawNum 200).parseFloat
      ∧ (rawNum 5).toNumber = (rawNum 5).parseFloat
      ∧ (rawNum 10).toNumber = (rawNum 10).parseFloat)
      ∧ (renderBaseExpr (rawNum 200)
            = (calculateBTURaw (rawNum 200) (rawNum 5) (rawNum 10) "sunny").baseBTU
        ∧ renderOccExpr (rawNum 5)
            = (calculateBTURaw (rawNum 200) (rawNum 5) (rawNum 10) "sunny").occupancyBTU
        ∧ renderHeightExpr (rawNum 10)
            = (calculateBTURaw (rawNum 200) (rawNum 5) (rawNum 10) "sunny").heightBTU
        ∧ renderSunExpr "sunny" (rawNum 200)
            = (calculateBTURaw (rawNum 200) (rawNum 5) (rawNum 10) "sunny").sunBTU) :=
  ⟨⟨rfl, rfl, rfl⟩,
   render_breakdown_agrees_when_coercions_agree (rawNum 200) (rawNum 5) (rawNum 10)
     "sunny" rfl rfl rfl⟩

/-- Claim C8: an empty or non-numeric text value (parseFloat gives NaN) in the
area, occupants or height field is normalized to 0 before use, so the computed
result equals the result with that field set to 0. -/
theorem nonnumeric_input_normalized_to_zero
    (area occupants height bad : RawText) (e : String)
    (hbad : bad.parseFloat = none) :
    calculateBTURaw bad occupants height e
        = calculateBTURaw (rawNum 0) occupants height e
      ∧ calculateBTURaw area bad height e = calculateBTURaw area (rawNum 0) height e
      ∧ calculateBTURaw area occupants bad e
        = calculateBTURaw area occupants (rawNum 0) e := by
  refine ⟨?_, ?_, ?_⟩ <;> simp [calculateBTURaw, hbad, rawNum, jsOrZero]

theorem nonnumeric_input_normalized_to_zero_witness :
    rawEmpty.parseFloat = none
      ∧ (calculateBTURaw rawEmpty (rawNum 5) (rawNum 10) "sunny"
            = calculateBTURaw (rawNum 0) (rawNum 5) (rawNum 10) "sunny"
        ∧ calculateBTURaw (rawNum 200) rawEmpty (rawNum 10) "sunny"
            = calculateBTURaw (rawNum 200) (rawNum 0) (rawNum 10) "sunny"
        ∧ calculateBTURaw (rawNum 200) (rawNum 5) rawEmpty "sunny"
            = calculateBTURaw (rawNum 200) (rawNum 5) (rawNum 0) "sunny") :=
  ⟨rfl, nonnumeric_input_normalized_to_zero (rawNum 200) (rawNum 5) (rawNum 10)
    rawEmpty "sunny" rfl⟩

/-- Claim C9: the computation is pure and deterministic; equal inputs give
equal totals and equal breakdown terms, with no dependence on any other
state. -/
theorem estimator_deterministic (a o h a' o' h' : ℚ) (e e' : String)
    (h1 : a = a') (h2 : o = o') (h3 : h = h') (h4 : e = e') :
    calculateBTU a o h e = calculateBTU a' o' h' e'
      ∧ (calculateBTU a o h e).totalBTU = (calculateBTU a' o' h' e').totalBTU
      ∧ (calculateBTU a o h e).baseBTU = (calculateBTU a' o' h' e').baseBTU
      ∧ (calculateBTU a o h e).occupancyBTU = (calculateBTU a' o' h' e').occupancyBTU
      ∧ (calculateBTU a o h e).heightBTU = (calculateBTU a' o' h' e').heightBTU
      ∧ (calculateBTU a o h e).sunBTU = (calculateBTU a' o' h' e').sunBTU := by
  subst h1; subst h2; subst h3; subst h4
  exact ⟨rfl, rfl, rfl, rfl, rfl, rfl⟩

theorem estimator_deterministic_witness :
    ((200:ℚ) = 200 ∧ (5:ℚ) = 5 ∧ (10:ℚ) = 10 ∧ "sunny" = "sunny")
      ∧ calculateBTU 200 5 10 "sunny" = calculateBTU 200 5 10 "sunny" :=
  ⟨⟨rfl, rfl, rfl, rfl⟩,
   (estimator_deterministic 200 5 10 200 5 10 "sunny" "sunny" rfl rfl rfl rfl).1⟩

/-- Claim C10: for non-negative areaSqFt, occupantCount and ceilingHeightFt
and any of the four exposure variants, the total is non-negative, and in fact
at least 0.9 times the base, since the only negative term is the shady climate
adjustment of -10 percent of base and every other term is non-negative. -/
theorem total_nonneg_and_bounded_below (a o h : ℚ) (e : String)
    (ha : 0 ≤ a) (ho : 0 ≤ o) (hh : 0 ≤ h)
    (he : e ∈ (["shady", "average", "sunny", "very_sunny"] : List String)) :
    0.9 * (calculateBTU a o h e).baseBTU ≤ (calculateBTU a o h e).totalBTU
      ∧ 0 ≤ (calculateBTU a o h e).totalBTU := by
  have hbase : (0:ℚ) ≤ baseBTU a := by
    rw [baseBTU]; positivity
  have hocc := occupancyBTU_nonneg o
  have hhgt := heightBTU_nonneg h
  have hsun : -(0.10 * baseBTU a) ≤ sunBTU e (baseBTU a) := by
    simp only [List.mem_cons, List.not_mem_nil, or_false] at he
    rcases he with rfl | rfl | rfl | rfl
    · rw [sunBTU_shady]; nlinarith
    · rw [sunBTU_average]; nlinarith
    · rw [sunBTU_sunny]; nlinarith
    · rw [sunBTU_very_sunny]; nlinarith
  constructor
  · show 0.9 * baseBTU a
        ≤ baseBTU a + occupancyBTU o + heightBTU h + sunBTU e (baseBTU a)
    nlinarith
  · show (0:ℚ) ≤ baseBTU a + occupancyBTU o + heightBTU h + sunBTU e (baseBTU a)
    nlinarith

theorem total_nonneg_and_bounded_below_witness :
    ((0:ℚ) ≤ 200 ∧ (0:ℚ) ≤ 5 ∧ (0:ℚ) ≤ 10
      ∧ "shady" ∈ (["shady", "average", "sunny", "very_sunny"] : List String))
      ∧ (0.9 * (calculateBTU 200 5 10 "shady").baseBTU
            ≤ (calculateBTU 200 5 10 "shady").totalBTU
        ∧ 0 ≤ (calculateBTU 200 5 10 "shady").totalBTU) :=
  ⟨⟨by norm_num, by norm_num, by norm_num, by decide⟩,
   total_nonneg_and_bounded_below 200 5 10 "shady" (by norm_num) (by norm_num)
     (by norm_num) (by decide)⟩
